import Mathlib

/-
  Verification of the intent-routing and response-aggregation workflow of the
  SMSA AI Assistant (apps/ai-engine).  The definitions below are a shallow
  embedding of the Python source:
    - src/orchestrator/intent_classifier.py  (Intent, classify, classify_async,
      extract_parameters)
    - src/orchestrator/graph.py              (the four LangGraph nodes)
    - src/agents/rates.py                    (the city-ordering core of
      _extract_rate_params)
  Python dictionaries are modelled as association lists over a JSON-like value
  type; fallible external calls (LLM backend, storage, MongoDB) are modelled as
  Except-valued oracles passed in as parameters; Python exceptions raised by the
  embedded code itself are modelled by an Except result type.
-/

set_option autoImplicit false

namespace SMSA

/-- Intent enum from intent_classifier.py (class Intent, six members). -/
inductive Intent where
  | TRACKING
  | RATES
  | LOCATIONS
  | FAQ
  | GENERAL
  | AMBIGUOUS
deriving DecidableEq, Repr

/-- Name of an intent, mirroring the str values of the Python enum
(Intent.value, used as intent.value when persisting metadata). -/
def intentName : Intent → String
  | Intent.TRACKING => "TRACKING"
  | Intent.RATES => "RATES"
  | Intent.LOCATIONS => "LOCATIONS"
  | Intent.FAQ => "FAQ"
  | Intent.GENERAL => "GENERAL"
  | Intent.AMBIGUOUS => "AMBIGUOUS"

/-- Parse a string into an Intent, mirroring the Python constructor call
Intent(intent_str), which raises ValueError exactly on strings that are not
one of the six enum values (here: returns none). -/
def intentOfString : String → Option Intent
  | "TRACKING" => some Intent.TRACKING
  | "RATES" => some Intent.RATES
  | "LOCATIONS" => some Intent.LOCATIONS
  | "FAQ" => some Intent.FAQ
  | "GENERAL" => some Intent.GENERAL
  | "AMBIGUOUS" => some Intent.AMBIGUOUS
  | _ => none

/-- Python str.lower() over the ASCII text this system handles: lower each
character (String.toLower maps the same Char.toLower, but its implementation
does not reduce in the kernel, so we map over the character list). -/
def pyLower (s : String) : String :=
  String.mk (s.toList.map Char.toLower)

/-- needle occurs as a contiguous sublist of hay (Python: needle in hay for
strings, over the character lists). -/
def listContains (needle : List Char) : List Char → Bool
  | [] => needle.isEmpty
  | c :: t => needle.isPrefixOf (c :: t) || listContains needle t

/-- Python substring test: needle in hay. -/
def strContains (hay needle : String) : Bool :=
  listContains needle.toList hay.toList

/-- Python: any(k in lower for k in keywords). -/
def hasAny (lower : String) (keywords : List String) : Bool :=
  keywords.any (fun k => strContains lower k)

/-- Keyword set tested first in classify (intent_classifier.py line 50). -/
def trackingKeywords : List String := ["track", "awb", "shipment", "package"]

/-- Keyword set tested second in classify (line 52). -/
def ratesKeywords : List String := ["rate", "price", "cost", "quote"]

/-- Keyword set tested third in classify (line 54). -/
def locationsKeywords : List String := ["branch", "center", "office", "location"]

/-- Keyword set tested fourth in classify (line 56). -/
def faqKeywords : List String := ["how do i", "what is", "faq", "question"]

/-- SMSAAIAssistantIntentClassifier.classify (intent_classifier.py lines
36-60): lower-case the message, then test the four keyword sets in source
order, returning GENERAL when none matches.  A total pure function: the
Python body performs no fallible operation. -/
def classify (message : String) : Intent :=
  let lower := pyLower message
  if hasAny lower trackingKeywords then Intent.TRACKING
  else if hasAny lower ratesKeywords then Intent.RATES
  else if hasAny lower locationsKeywords then Intent.LOCATIONS
  else if hasAny lower faqKeywords then Intent.FAQ
  else Intent.GENERAL

/-- The keyword sets paired with their intents, in the priority order in which
the source tests them (written from the claim wording, to be compared with
classify: first matching set wins). -/
def keywordPriority : List (List String × Intent) :=
  [(trackingKeywords, Intent.TRACKING),
   (ratesKeywords, Intent.RATES),
   (locationsKeywords, Intent.LOCATIONS),
   (faqKeywords, Intent.FAQ)]

/-- Spec-side reformulation of classify: find the first keyword set (in
priority order) that matches, default GENERAL. -/
def classifySpec (message : String) : Intent :=
  match keywordPriority.find? (fun p => hasAny (pyLower message) p.1) with
  | some p => p.2
  | none => Intent.GENERAL

/-- Result of the LLM classification backend after the dictionary reads and
the float conversion in classify_async (lines 83-84).  Any failure of the
backend call itself, of the network, or of the float conversion is modelled
as the error case of the Except oracle. -/
structure LlmResult where
  intent : String
  confidence : ℚ
deriving DecidableEq, Repr

/-- SMSAAIAssistantIntentClassifier.classify_async (intent_classifier.py lines
62-99).  The llm parameter is the outcome of the backend call
llm_client.classify_intent(message) together with the parsing of its fields;
Except.error corresponds to any exception caught by the outer handler (line
93), which yields (GENERAL, 0.2).  A returned label is validated by
Intent(intent_str); a ValueError (invalid label) yields (GENERAL, 0.3).
Total: every Python exception path is caught inside the function. -/
def classify_async (message : String) (useLlmForAmbiguous : Bool)
    (llm : Except String LlmResult) : Intent × ℚ :=
  let intent := classify message
  if intent = Intent.GENERAL ∧ useLlmForAmbiguous = true then
    match llm with
    | Except.error _ => (Intent.GENERAL, (2 : ℚ)/10)
    | Except.ok r =>
      match intentOfString r.intent with
      | some i => (i, r.confidence)
      | none => (Intent.GENERAL, (3 : ℚ)/10)
  else
    (intent, if intent ≠ Intent.GENERAL then (8 : ℚ)/10 else (3 : ℚ)/10)

/-- Fractional part of the Python regex group (\d+(?:\.\d+)?): after the
integer digit run, a dot followed by at least one digit extends the match
with the dot and the following maximal digit run. -/
def fracPart : List Char → List Char
  | '.' :: rest =>
    let ds := rest.takeWhile Char.isDigit
    if ds.isEmpty then [] else '.' :: ds
  | _ => []

/-- Semantics of re.search for the weight pattern of extract_parameters
(line 113): the unit suffix \s*(?:kg|kilograms?|kgs)? is entirely optional,
so the leftmost match starts at the first digit and group(1) is that maximal
decimal number. -/
def firstNumber : List Char → Option String
  | [] => none
  | c :: rest =>
    if c.isDigit then
      let run := (c :: rest).takeWhile Char.isDigit
      let after := (c :: rest).dropWhile Char.isDigit
      some (String.mk (run ++ fracPart after))
    else firstNumber rest

/-- One of the alternatives piece|pieces|pcs|pc of the pieces regex occurs as
a prefix at this position. -/
def pieceTokenAt (l : List Char) : Bool :=
  ["piece", "pieces", "pcs", "pc"].any (fun t => t.toList.isPrefixOf l)

/-- Semantics of re.search for the pieces pattern (\d+)\s*(?:piece|pieces|pcs|pc)
of extract_parameters (line 118): the leftmost digit run that is followed by
optional whitespace and one of the unit alternatives; group(1) is that run. -/
def firstPieces : List Char → Option String
  | [] => none
  | c :: rest =>
    if c.isDigit then
      let run := (c :: rest).takeWhile Char.isDigit
      let after := (c :: rest).dropWhile Char.isDigit
      if pieceTokenAt (after.dropWhile Char.isWhitespace) then
        some (String.mk run)
      else firstPieces rest
    else firstPieces rest

/-- The fixed city vocabulary of extract_parameters (lines 123-127), in source
order: riyadh appears before jeddah. -/
def saudiCities : List String :=
  ["riyadh", "jeddah", "dammam", "khobar", "makkah", "madinah",
   "taif", "abha", "jazan", "hail", "buraidah", "tabuk",
   "najran", "al jouf", "arar", "sakaka"]

/-- Worker for title: upper-case a character at the start of the string or
after a space, keep the rest (the vocabulary strings are lower-case). -/
def titleGo : Bool → List Char → List Char
  | _, [] => []
  | up, c :: t => (if up then c.toUpper else c) :: titleGo (c = ' ') t

/-- Python str.title() restricted to the lower-case alphabetic-plus-space
strings of the city vocabulary: capitalize the first letter of each
space-separated word. -/
def title (s : String) : String :=
  String.mk (titleGo true s.toList)

/-- The mapping returned by extract_parameters, with one field per possible
key; a key absent from the Python dict is a none field. -/
structure ExtractedParams where
  weight : Option String
  pieces : Option String
  origin_city : Option String
  destination_city : Option String
deriving DecidableEq, Repr

/-- SMSAAIAssistantIntentClassifier.extract_parameters (intent_classifier.py
lines 101-143).  Weight and pieces come from the two regex searches over the
lowered message; cities are collected by iterating the vocabulary in list
order and testing substring membership (lines 132-134), then the first two
collected entries fill origin_city and destination_city (lines 136-141).
Total: the Python body performs no fallible operation. -/
def extract_parameters (message : String) : ExtractedParams :=
  let lower := pyLower message
  let weight := firstNumber lower.toList
  let pieces := firstPieces lower.toList
  let found := (saudiCities.filter (fun c => strContains lower c)).map title
  match found with
  | a :: b :: _ =>
    { weight := weight, pieces := pieces, origin_city := some a, destination_city := some b }
  | [a] =>
    { weight := weight, pieces := pieces, origin_city := none, destination_city := some a }
  | [] =>
    { weight := weight, pieces := pieces, origin_city := none, destination_city := none }

/-- Index of the first occurrence of needle in hay (Python str.find, returning
none instead of -1). -/
def indexOfSub (needle : List Char) : List Char → Option Nat
  | [] => if needle.isEmpty then some 0 else none
  | c :: t =>
    if needle.isPrefixOf (c :: t) then some 0
    else (indexOfSub needle t).map (· + 1)

/-- Stable insertion into a list sorted by ascending first component. -/
def insertSorted (p : Nat × String) : List (Nat × String) → List (Nat × String)
  | [] => [p]
  | q :: t => if p.1 ≤ q.1 then p :: q :: t else q :: insertSorted p t

/-- The city-ordering core of SMSAAIAssistantRatesAgent._extract_rate_params
(rates.py lines 197-205): collect (index, city.title()) for each vocabulary
city found in the lowered message, sort by index, and keep the names.  The
source comments there state the intent explicitly: use an ordered list so we
can respect the order in the user message. -/
def ratesOrderedCities (message : String) : List String :=
  let lower := pyLower message
  let found := saudiCities.filterMap (fun c =>
    match indexOfSub c.toList lower.toList with
    | some i => some (i, title c)
    | none => none)
  (found.foldr insertSorted []).map Prod.snd

/-- JSON-like values populating the Python Dict[str, Any] payloads that flow
through the orchestrator state. -/
inductive Value where
  | str (s : String)
  | num (q : ℚ)
  | bool (b : Bool)
  | null
  | dict (entries : List (String × Value))
  | arr (elems : List Value)

/-- A Python dict modelled as an association list (keys unique in every dict
the Python runtime actually builds; lookups take the first occurrence). -/
abbrev Dict := List (String × Value)

/-- Python truthiness of a value, as used by bare if tests in the source. -/
def Value.isTruthy : Value → Bool
  | Value.str s => !s.isEmpty
  | Value.num q => decide (q ≠ 0)
  | Value.bool b => b
  | Value.null => false
  | Value.dict l => !l.isEmpty
  | Value.arr l => !l.isEmpty

/-- Dictionary lookup (Python d.get(k) / k in d, first matching key). -/
def getVal (k : String) : Dict → Option Value
  | [] => none
  | (k0, v) :: t => if k = k0 then some v else getVal k t

/-- Dictionary assignment d[k] = v: replace the value of the first matching
key, or append the pair when the key is absent. -/
def setKey (k : String) (v : Value) : Dict → Dict
  | [] => [(k, v)]
  | (k0, w) :: t => if k0 = k then (k0, v) :: t else (k0, w) :: setKey k v t

/-- Python truthiness of an Optional[str] field (None and the empty string
are falsy). -/
def optStrTruthy : Option String → Bool
  | some s => !s.isEmpty
  | none => false

/-- Value of an Optional[str] when stored into a metadata dict. -/
def optStrValue : Option String → Value
  | some s => Value.str s
  | none => Value.null

/-- Value of state.intent.value if state.intent else None. -/
def intentValue : Option Intent → Value
  | some i => Value.str (intentName i)
  | none => Value.null

/-- SMSAAIAssistantOrchestratorState (state.py): the turn state threaded
through the LangGraph workflow.  Fields keep the source names and defaults. -/
structure OrchestratorState where
  message : String
  conversation_id : String
  user_id : Option String := none
  selected_agent : Option String := none
  explicit_intent : Option Intent := none
  file_id : Option String := none
  file_url : Option String := none
  intent : Option Intent := none
  intent_confidence : ℚ := 0
  parameters : Dict := []
  conversation_history : List Dict := []
  file_context : Dict := []
  semantic_context : Dict := []
  agent_name : Option String := none
  agent_response : Option Dict := none
  content : String := ""
  metadata : Dict := []

/-- The partial state update returned by _classify_intent_node: the branch
for an explicit agent or an explicit intent returns no parameters key, the
auto-classification branch returns the extracted parameters. -/
structure ClassifyUpdate where
  intent : Intent
  intent_confidence : ℚ
  parameters : Option ExtractedParams
deriving DecidableEq, Repr

/-- The agent_to_intent dict of _classify_intent_node (graph.py lines 81-86). -/
def agentIntentTable : List (String × Intent) :=
  [("tracking", Intent.TRACKING), ("rates", Intent.RATES),
   ("retail", Intent.LOCATIONS), ("faq", Intent.FAQ)]

/-- SMSAAIAssistantOrchestratorGraph._classify_intent_node (graph.py lines
70-111).  Priority 1: a truthy selected_agent is mapped through
agent_to_intent.get(selected_agent, GENERAL) with confidence 1.0.  Priority
2: a set explicit_intent is taken as is with confidence 1.0.  Priority 3:
classify_async with use_llm_for_ambiguous=True, plus extract_parameters.
The llm oracle is the outcome of the backend call made by classify_async;
the first two branches never evaluate it. -/
def classifyIntentNode (llm : Except String LlmResult) (st : OrchestratorState) :
    ClassifyUpdate :=
  if optStrTruthy st.selected_agent then
    { intent := (agentIntentTable.lookup (st.selected_agent.getD "")).getD Intent.GENERAL,
      intent_confidence := 1, parameters := none }
  else if st.explicit_intent.isSome then
    { intent := st.explicit_intent.getD Intent.GENERAL,
      intent_confidence := 1, parameters := none }
  else
    let ic := classify_async st.message true llm
    { intent := ic.1, intent_confidence := ic.2,
      parameters := some (extract_parameters st.message) }

/-- The partial state update returned by _assemble_context_node. -/
structure AssembleUpdate where
  conversation_history : List Dict
  file_context : Dict
  semantic_context : Dict

/-- SMSAAIAssistantOrchestratorGraph._assemble_context_node (graph.py lines
113-181).  The storage oracle is the outcome of
storage_client.get_conversation_context (ok none models a Python None); the
db oracle is the outcome of db_manager.get_conversation_history.  File
context is fetched only when file_id is truthy and the intent is TRACKING,
and any storage failure is swallowed to an empty dict; the history fetch is
skipped when conversation_id is falsy or equals the sentinel "default", and
any failure is swallowed to an empty list.  The nested vision block (lines
136-146) only logs, so it has no observable effect here.  Stored values are
assumed dict-shaped where the source indexes into them. -/
def assembleContextNode (storage : Except String (Option Dict))
    (db : Except String (List Dict)) (st : OrchestratorState) : AssembleUpdate :=
  let fc : Dict :=
    if optStrTruthy st.file_id ∧ st.intent = some Intent.TRACKING then
      match storage with
      | Except.error _ => []
      | Except.ok none => []
      | Except.ok (some cd) =>
        if !cd.isEmpty && (getVal "files" cd).isSome then
          match getVal "files" cd with
          | some (Value.dict files) =>
            (match getVal (st.file_id.getD "") files with
             | some (Value.dict fcd) => fcd
             | _ => [])
          | _ => []
        else []
    else []
  let hist : List Dict :=
    if st.conversation_id ≠ "" ∧ st.conversation_id ≠ "default" then
      match db with
      | Except.ok l => l
      | Except.error _ => []
    else []
  { conversation_history := hist, file_context := fc, semantic_context := [] }

end SMSA

namespace SMSA

/-- The context dict built by _route_to_agent_node (graph.py lines 204-213)
and passed to the agent that runs. -/
structure AgentContext where
  conversation_id : String
  user_id : Option String
  message : String
  intent : Option Intent
  parameters : Dict
  conversation_history : List Dict
  file_context : Dict
  semantic_context : Dict

/-- Truthiness of d.get(k): the key is present and its value is truthy. -/
def truthyGet (k : String) (d : Dict) : Bool :=
  match getVal k d with
  | some v => v.isTruthy
  | none => false

/-- The parameter merge of _route_to_agent_node (graph.py lines 187-202):
when file_context is truthy and file_context.get("extracted_data", \x7b\x7d)
is truthy with a truthy awb entry, the awb and any truthy origin,
destination, weight and pieces entries are copied over the text-derived
parameters. -/
def mergeFileParams (parameters : Dict) (file_context : Dict) : Dict :=
  if file_context.isEmpty then parameters
  else
    let extracted : Dict :=
      match getVal "extracted_data" file_context with
      | some (Value.dict l) => l
      | _ => []
    if !extracted.isEmpty && truthyGet "awb" extracted then
      let p1 := setKey "awb" ((getVal "awb" extracted).getD Value.null) parameters
      let p2 := if truthyGet "origin" extracted then
          setKey "origin_city" ((getVal "origin" extracted).getD Value.null) p1 else p1
      let p3 := if truthyGet "destination" extracted then
          setKey "destination_city" ((getVal "destination" extracted).getD Value.null) p2 else p2
      let p4 := if truthyGet "weight" extracted then
          setKey "weight" ((getVal "weight" extracted).getD Value.null) p3 else p3
      if truthyGet "pieces" extracted then
        setKey "pieces" ((getVal "pieces" extracted).getD Value.null) p4 else p4
    else parameters

/-- Build the context dict handed to the agent (graph.py lines 204-213). -/
def agentContextOf (st : OrchestratorState) : AgentContext :=
  { conversation_id := st.conversation_id
    user_id := st.user_id
    message := st.message
    intent := st.intent
    parameters := mergeFileParams st.parameters st.file_context
    conversation_history := st.conversation_history
    file_context := st.file_context
    semantic_context := st.semantic_context }

/-- The four agent run coroutines, as opaque fallible functions; Except.error
models the agent raising an exception. -/
structure Handlers where
  tracking : AgentContext → Except String Dict
  rates : AgentContext → Except String Dict
  retail : AgentContext → Except String Dict
  faq : AgentContext → Except String Dict

/-- The fixed fallback dict of the GENERAL / AMBIGUOUS / unset branch of
_route_to_agent_node (graph.py lines 232-235). -/
def systemFallback : Dict :=
  [("agent", Value.str "system"),
   ("content", Value.str "I can help with tracking, rates, service centers, and FAQs. Please select an agent or specify what you need.")]

/-- SMSAAIAssistantOrchestratorGraph._route_to_agent_node (graph.py lines
183-240).  The source awaits the mapped agent with no try/except around the
call, so an agent exception leaves the node as an exception: the result type
is Except, and ok carries the (agent_name, agent_response) update. -/
def routeToAgentNode (h : Handlers) (st : OrchestratorState) :
    Except String (String × Dict) :=
  let ctx := agentContextOf st
  match st.intent with
  | some Intent.TRACKING => (h.tracking ctx).map (fun r => ("tracking", r))
  | some Intent.RATES => (h.rates ctx).map (fun r => ("rates", r))
  | some Intent.LOCATIONS => (h.retail ctx).map (fun r => ("retail", r))
  | some Intent.FAQ => (h.faq ctx).map (fun r => ("faq", r))
  | _ => Except.ok ("system", systemFallback)

/-- The static intent-to-handler mapping of the dispatch chain, paired with
the agent name the node records. -/
def handlerFor (h : Handlers) : Intent → Option (String × (AgentContext → Except String Dict))
  | Intent.TRACKING => some ("tracking", h.tracking)
  | Intent.RATES => some ("rates", h.rates)
  | Intent.LOCATIONS => some ("retail", h.retail)
  | Intent.FAQ => some ("faq", h.faq)
  | Intent.GENERAL => none
  | Intent.AMBIGUOUS => none

end SMSA

namespace SMSA

/-- The entries spliced by **state.agent_response.get("metadata", \x7b\x7d)
in _aggregate_response_node; a present non-dict value would make the Python
splice raise, see metadataWellFormed. -/
def metaEntries (d : Dict) : Dict :=
  match getVal "metadata" d with
  | some (Value.dict l) => l
  | _ => []

/-- The metadata key of a handler result, when present, holds a dict (true
of every dict the Python runtime can splice without raising). -/
def metadataWellFormed (d : Dict) : Prop :=
  ∀ v, getVal "metadata" d = some v → ∃ l, v = Value.dict l

/-- The top-level pass-through keys copied one by one by
_aggregate_response_node (graph.py lines 262-282), in source order. -/
def whitelistKeys : List String :=
  ["type", "raw_data", "events", "current_status", "status_explanation",
   "requires_awb", "centers", "location_info", "city", "needs_clarification"]

/-- The metadata construction of _aggregate_response_node (graph.py lines
255-282): a base dict with the agent entry
agent_response.get("agent", state.agent_name), overridden by the entries of
agent_response.get("metadata", \x7b\x7d), then each whitelist key present at
top level of the agent response is copied over the result. -/
def aggregateMetadata (agentDefault : Value) (d : Dict) : Dict :=
  let base : Dict := [("agent", (getVal "agent" d).getD agentDefault)]
  let merged := (metaEntries d).foldl (fun acc kv => setKey kv.1 kv.2 acc) base
  whitelistKeys.foldl
    (fun acc k =>
      match getVal k d with
      | some v => setKey k v acc
      | none => acc)
    merged

/-- The response-shaping part of _aggregate_response_node (graph.py lines
250-282): content and metadata both stay empty when agent_response is None
or an empty (falsy) dict; otherwise content is
agent_response.get("content", "") and metadata is aggregateMetadata. -/
def aggregateEnvelope (agentName : Option String) (resp : Option Dict) : Value × Dict :=
  match resp with
  | none => (Value.str "", [])
  | some [] => (Value.str "", [])
  | some d => ((getVal "content" d).getD (Value.str ""),
               aggregateMetadata (optStrValue agentName) d)

/-- One MongoDB call issued by the persistence block of
_aggregate_response_node. -/
inductive DbCall where
  | ensure (conversation_id user_id : String) (metadata : Dict)
  | save (conversation_id role : String) (content : Value) (metadata : Dict)

/-- Outcomes of the three MongoDB calls the persistence block can issue, in
source order.  Each call sits in its own try/except, so its outcome is only
logged. -/
structure DbOutcomes where
  ensure : Except String Bool := Except.ok true
  saveUser : Except String String := Except.ok "m1"
  saveAsst : Except String String := Except.ok "m2"

/-- One guarded call of the persistence block: the call itself is issued
(appended to the log) and its outcome is inspected only by the except clause,
which logs a warning; both branches therefore leave the same log. -/
def attemptCall {α : Type} (log : List DbCall) (c : DbCall)
    (outcome : Except String α) : List DbCall :=
  match outcome with
  | Except.ok _ => log.concat c
  | Except.error _ => log.concat c

/-- SMSAAIAssistantOrchestratorGraph._aggregate_response_node (graph.py lines
242-344): shape the envelope, then, for a persisting conversation id (truthy
and not the "default" sentinel), issue ensure_conversation_exists, a user
save_message and an assistant save_message, each individually guarded; the
returned update carries only the already-computed content and metadata. -/
def aggregateResponseNode (db : DbOutcomes) (st : OrchestratorState) :
    (Value × Dict) × List DbCall :=
  let env := aggregateEnvelope st.agent_name st.agent_response
  let content := env.1
  let metadata := env.2
  let calls : List DbCall :=
    if st.conversation_id ≠ "" ∧ st.conversation_id ≠ "default" then
      let uid := match st.user_id with
        | some u => if u = "" then "anonymous" else u
        | none => "anonymous"
      let afterEnsure := attemptCall []
        (DbCall.ensure st.conversation_id uid
          [("intent", intentValue st.intent),
           ("selected_agent", optStrValue st.selected_agent)])
        db.ensure
      let afterUser := attemptCall afterEnsure
        (DbCall.save st.conversation_id "user" (Value.str st.message)
          [("intent", intentValue st.intent),
           ("intent_confidence", Value.num st.intent_confidence),
           ("selected_agent", optStrValue st.selected_agent)])
        db.saveUser
      attemptCall afterUser
        (DbCall.save st.conversation_id "assistant" content
          [("agent", (getVal "agent" metadata).getD (optStrValue st.agent_name)),
           ("intent", intentValue st.intent)])
        db.saveAsst
    else []
  ((content, metadata), calls)

end SMSA

namespace SMSA

/-- firstNumber finds a match exactly when the text contains a digit. -/
theorem firstNumber_isSome (l : List Char) :
    (firstNumber l).isSome = l.any Char.isDigit := by
  induction l with
  | nil => simp [firstNumber]
  | cons c t ih =>
    by_cases hc : c.isDigit = true
    · simp [firstNumber, hc]
    · simp [firstNumber, hc, ih]

/-- The weight field of extract_parameters is exactly the first decimal
number of the lowered message. -/
theorem extract_parameters_weight (m : String) :
    (extract_parameters m).weight = firstNumber (pyLower m).toList := by
  rcases h : (saudiCities.filter (fun c => strContains (pyLower m) c)).map title with
    _ | ⟨a, _ | ⟨b, rest⟩⟩ <;>
  simp [extract_parameters, h]

end SMSA

namespace SMSA

/-- C4: the synchronous keyword classifier is a total pure function (hence it
never raises and is deterministic: equal messages give equal intents by
congruence); it returns one of the five intents TRACKING, RATES, LOCATIONS,
FAQ, GENERAL and agrees with the priority-ordered first-match reading of the
four keyword sets, so TRACKING wins over RATES, RATES over LOCATIONS,
LOCATIONS over FAQ, and a message matching no set yields GENERAL. -/
theorem classify_five_intents_priority_order (m : String) :
    classify m = classifySpec m ∧
    classify m ∈ [Intent.TRACKING, Intent.RATES, Intent.LOCATIONS, Intent.FAQ, Intent.GENERAL] := by
  unfold classify classifySpec keywordPriority
  by_cases h1 : hasAny (pyLower m) trackingKeywords = true <;>
  by_cases h2 : hasAny (pyLower m) ratesKeywords = true <;>
  by_cases h3 : hasAny (pyLower m) locationsKeywords = true <;>
  by_cases h4 : hasAny (pyLower m) faqKeywords = true <;>
  simp [List.find?, h1, h2, h3, h4]

/-- C3 (amended): extract_parameters is total (the embedding is a plain
function and the Python body has no fallible operation), and the weight key
is present exactly when the message contains at least one digit - the unit
suffix of the regex is optional, so no unit token is required.  Lowering
does not affect digits, so the right-hand side is equivalent to the same
test on the raw message. -/
theorem extract_weight_key_iff_digit (m : String) :
    ((extract_parameters m).weight).isSome = (pyLower m).toList.any Char.isDigit := by
  rw [extract_parameters_weight, firstNumber_isSome]

/-- C3 (counterexample): the message "5" contains a bare number and no
weight-unit token at all (no occurrence of kg, kgs or kilogram), yet
extract_parameters produces the weight key with value "5"; the claim as
stated predicts that the weight key is omitted here. -/
theorem extract_weight_without_unit_counterexample :
    (extract_parameters "5").weight = some "5" ∧
    strContains (pyLower "5") "kg" = false ∧
    strContains (pyLower "5") "kilogram" = false := by
  decide

/-- C1 (code evaluated at the failing input): for the message
"from Jeddah to Riyadh", SMSAAIAssistantIntentClassifier.extract_parameters
collects the cities by vocabulary order (riyadh is listed before jeddah), so
it assigns origin_city = "Riyadh" and destination_city = "Jeddah", the
reverse of the text order the spec requires; the city-ordering core of
SMSAAIAssistantRatesAgent._extract_rate_params sorts the same matches by
their index in the message and yields the text order ["Jeddah", "Riyadh"],
confirming text order as the intended semantics within the repository. -/
theorem extract_cities_vocabulary_order_bug :
    (extract_parameters "from Jeddah to Riyadh").origin_city = some "Riyadh" ∧
    (extract_parameters "from Jeddah to Riyadh").destination_city = some "Jeddah" ∧
    ratesOrderedCities "from Jeddah to Riyadh" = ["Jeddah", "Riyadh"] := by
  decide

/-- C5: classify_with_fallback never raises (totality of classify_async) and,
when keyword classification is GENERAL and the LLM fallback is enabled, a
backend failure of any kind degrades to (GENERAL, 0.2) and a backend label
outside the intent enum degrades to (GENERAL, 0.3); both are at most 0.3. -/
theorem classify_async_fallback_degrades (m : String) (e : String) (r : LlmResult)
    (hg : classify m = Intent.GENERAL) :
    classify_async m true (Except.error e) = (Intent.GENERAL, (2 : ℚ)/10) ∧
    (intentOfString r.intent = none →
      classify_async m true (Except.ok r) = (Intent.GENERAL, (3 : ℚ)/10)) ∧
    ((2 : ℚ)/10 ≤ (3 : ℚ)/10 ∧ (3 : ℚ)/10 ≤ (3 : ℚ)/10) := by
  refine ⟨?_, ?_, by norm_num⟩
  · simp [classify_async, hg]
  · intro hr
    simp [classify_async, hg, hr]

/-- Witness for C5 at the concrete message "hello" (keyword-general), a
concrete backend exception and a concrete invalid label. -/
theorem classify_async_fallback_degrades_witness :
    classify "hello" = Intent.GENERAL ∧
    classify_async "hello" true (Except.error "connection timeout") = (Intent.GENERAL, (2 : ℚ)/10) ∧
    classify_async "hello" true (Except.ok { intent := "SHIPPING", confidence := (9 : ℚ)/10 }) = (Intent.GENERAL, (3 : ℚ)/10) := by
  have hg : classify "hello" = Intent.GENERAL := by decide
  have h := classify_async_fallback_degrades "hello" "connection timeout"
    { intent := "SHIPPING", confidence := (9 : ℚ)/10 } hg
  exact ⟨hg, h.1, h.2.1 (by decide)⟩

end SMSA

namespace SMSA

/-- Behavior of the classify node on the explicit-agent branch: any non-empty
selected_agent short-circuits to the agent_to_intent lookup at confidence
1.0 with no parameters key. -/
theorem classifyIntentNode_selected (llm : Except String LlmResult)
    (st : OrchestratorState) (s : String)
    (hsel : st.selected_agent = some s) (hs : s ≠ "") :
    classifyIntentNode llm st =
      { intent := (agentIntentTable.lookup s).getD Intent.GENERAL,
        intent_confidence := 1, parameters := none } := by
  unfold classifyIntentNode
  rw [hsel]
  simp [optStrTruthy, String.isEmpty_iff, hs]

/-- Behavior of the classify node on the explicit-intent branch. -/
theorem classifyIntentNode_explicit (llm : Except String LlmResult)
    (st : OrchestratorState) (i : Intent)
    (hsel : optStrTruthy st.selected_agent = false)
    (hint : st.explicit_intent = some i) :
    classifyIntentNode llm st =
      { intent := i, intent_confidence := 1, parameters := none } := by
  unfold classifyIntentNode
  rw [hint]
  simp [hsel]

/-- Behavior of the classify node on the auto-classification branch. -/
theorem classifyIntentNode_auto (llm : Except String LlmResult)
    (st : OrchestratorState)
    (hsel : optStrTruthy st.selected_agent = false)
    (hint : st.explicit_intent = none) :
    classifyIntentNode llm st =
      { intent := (classify_async st.message true llm).1,
        intent_confidence := (classify_async st.message true llm).2,
        parameters := some (extract_parameters st.message) } := by
  unfold classifyIntentNode
  rw [hint]
  simp [hsel]

/-- C6: the classify stage applies exactly one of the three sources of
intent, in the priority order explicit agent > explicit intent >
auto-classification (the three branch conditions below are mutually
exclusive and exhaustive, and the node is a total function, so an intent is
always produced); whenever the explicit agent is one of tracking, rates,
retail, faq, the keyword/LLM classifier is never consulted (the result does
not depend on the llm oracle), the confidence is exactly 1.0, no parameters
are extracted, and the intent is the mapped value tracking to TRACKING,
rates to RATES, retail to LOCATIONS, faq to FAQ. -/
theorem classify_node_priority_contract (llm llm2 : Except String LlmResult)
    (st : OrchestratorState) (i : Intent) :
    (∀ s : String, st.selected_agent = some s →
        s ∈ ["tracking", "rates", "retail", "faq"] →
        classifyIntentNode llm st = classifyIntentNode llm2 st ∧
        (classifyIntentNode llm st).intent_confidence = 1 ∧
        (classifyIntentNode llm st).parameters = none) ∧
    (st.selected_agent = some "tracking" → (classifyIntentNode llm st).intent = Intent.TRACKING) ∧
    (st.selected_agent = some "rates" → (classifyIntentNode llm st).intent = Intent.RATES) ∧
    (st.selected_agent = some "retail" → (classifyIntentNode llm st).intent = Intent.LOCATIONS) ∧
    (st.selected_agent = some "faq" → (classifyIntentNode llm st).intent = Intent.FAQ) ∧
    (optStrTruthy st.selected_agent = false → st.explicit_intent = some i →
        classifyIntentNode llm st = { intent := i, intent_confidence := 1, parameters := none }) ∧
    (optStrTruthy st.selected_agent = false → st.explicit_intent = none →
        classifyIntentNode llm st =
          { intent := (classify_async st.message true llm).1,
            intent_confidence := (classify_async st.message true llm).2,
            parameters := some (extract_parameters st.message) }) := by
  refine ⟨?_, ?_, ?_, ?_, ?_, classifyIntentNode_explicit llm st i, classifyIntentNode_auto llm st⟩
  · intro s hsel hmem
    have hs : s ≠ "" := by
      intro h
      subst h
      exact absurd hmem (by decide)
    rw [classifyIntentNode_selected llm st s hsel hs,
        classifyIntentNode_selected llm2 st s hsel hs]
    exact ⟨rfl, rfl, rfl⟩
  all_goals
    intro hsel
  · rw [classifyIntentNode_selected llm st _ hsel (by decide)]; rfl
  · rw [classifyIntentNode_selected llm st _ hsel (by decide)]; rfl
  · rw [classifyIntentNode_selected llm st _ hsel (by decide)]; rfl
  · rw [classifyIntentNode_selected llm st _ hsel (by decide)]; rfl

/-- Witness for C6: explicit agent "rates" on a concrete state, with two
different llm oracles. -/
theorem classify_node_priority_contract_witness :
    classifyIntentNode (Except.error "llm down")
        { message := "hi", conversation_id := "c1", selected_agent := some "rates" } =
      classifyIntentNode (Except.ok { intent := "FAQ", confidence := 1 })
        { message := "hi", conversation_id := "c1", selected_agent := some "rates" } ∧
    (classifyIntentNode (Except.error "llm down")
        { message := "hi", conversation_id := "c1", selected_agent := some "rates" }).intent = Intent.RATES ∧
    (classifyIntentNode (Except.error "llm down")
        { message := "hi", conversation_id := "c1", selected_agent := some "rates" }).intent_confidence = 1 := by
  have h := classify_node_priority_contract (Except.error "llm down")
    (Except.ok { intent := "FAQ", confidence := 1 })
    { message := "hi", conversation_id := "c1", selected_agent := some "rates" } Intent.GENERAL
  have h1 := h.1 "rates" rfl (by decide)
  exact ⟨h1.1, h.2.2.1 rfl, h1.2.1⟩

/-- C10: a non-empty selected_agent outside tracking, rates, retail, faq is
mapped through agent_to_intent.get with default GENERAL: the node returns
intent GENERAL at confidence exactly 1.0, extracts no parameters, and never
consults the keyword/LLM classifier (the result does not depend on the llm
oracle); a GENERAL intent is then routed by the dispatch stage to the fixed
system fallback message. -/
theorem classify_node_unknown_agent (llm llm2 : Except String LlmResult)
    (st : OrchestratorState) (s : String)
    (hsel : st.selected_agent = some s) (hs : s ≠ "")
    (hnot : s ∉ ["tracking", "rates", "retail", "faq"]) :
    classifyIntentNode llm st =
      { intent := Intent.GENERAL, intent_confidence := 1, parameters := none } ∧
    classifyIntentNode llm st = classifyIntentNode llm2 st ∧
    (∀ (h : Handlers) (st2 : OrchestratorState), st2.intent = some Intent.GENERAL →
        routeToAgentNode h st2 = Except.ok ("system", systemFallback)) := by
  simp only [List.mem_cons, List.not_mem_nil, or_false, not_or] at hnot
  obtain ⟨n1, n2, n3, n4⟩ := hnot
  have b1 : (s == "tracking") = false := beq_eq_false_iff_ne.mpr n1
  have b2 : (s == "rates") = false := beq_eq_false_iff_ne.mpr n2
  have b3 : (s == "retail") = false := beq_eq_false_iff_ne.mpr n3
  have b4 : (s == "faq") = false := beq_eq_false_iff_ne.mpr n4
  have hlook : agentIntentTable.lookup s = none := by
    simp [agentIntentTable, List.lookup, b1, b2, b3, b4]
  rw [classifyIntentNode_selected llm st s hsel hs,
      classifyIntentNode_selected llm2 st s hsel hs, hlook]
  refine ⟨rfl, rfl, ?_⟩
  intro h st2 hi
  simp [routeToAgentNode, hi]

/-- Witness for C10: the mistyped agent name "trackng" on a concrete state. -/
theorem classify_node_unknown_agent_witness :
    classifyIntentNode (Except.error "llm down")
        { message := "hi", conversation_id := "c1", selected_agent := some "trackng" } =
      { intent := Intent.GENERAL, intent_confidence := 1, parameters := none } := by
  exact (classify_node_unknown_agent (Except.error "llm down")
    (Except.ok { intent := "TRACKING", confidence := 1 })
    { message := "hi", conversation_id := "c1", selected_agent := some "trackng" }
    "trackng" rfl (by decide) (by decide)).1

end SMSA

namespace SMSA

/-- C2 (counterexample): _route_to_agent_node awaits the mapped agent with no
try/except, so with every handler raising and a concrete TRACKING state the
dispatch stage itself ends in the exception instead of returning a
system-error result. -/
theorem dispatch_propagates_counterexample :
    routeToAgentNode
      { tracking := fun _ => Except.error "boom",
        rates := fun _ => Except.error "boom",
        retail := fun _ => Except.error "boom",
        faq := fun _ => Except.error "boom" }
      { message := "track my parcel", conversation_id := "c1",
        intent := some Intent.TRACKING } =
      Except.error "boom" := rfl

/-- C2 (amended): the dispatch stage does not catch handler exceptions: for
every intent with a mapped handler, an exception raised by that handler
propagates out of _route_to_agent_node unchanged; only the unmapped intents
(GENERAL, AMBIGUOUS or an unset intent) are converted to the fixed system
fallback result, whose content is non-empty and whose agent is "system". -/
theorem dispatch_error_propagation (h : Handlers) (st : OrchestratorState)
    (i : Intent) (nm : String) (f : AgentContext → Except String Dict) (e : String)
    (hi : st.intent = some i) (hf : handlerFor h i = some (nm, f))
    (he : f (agentContextOf st) = Except.error e) :
    routeToAgentNode h st = Except.error e ∧
    (∀ st2 : OrchestratorState,
      (st2.intent = none ∨ st2.intent = some Intent.GENERAL ∨ st2.intent = some Intent.AMBIGUOUS) →
      routeToAgentNode h st2 = Except.ok ("system", systemFallback)) := by
  constructor
  · cases i <;> simp only [handlerFor, Option.some.injEq, Prod.mk.injEq] at hf
    case TRACKING =>
      obtain ⟨-, hfe⟩ := hf
      subst hfe
      simp [routeToAgentNode, hi, he, Except.map]
    case RATES =>
      obtain ⟨-, hfe⟩ := hf
      subst hfe
      simp [routeToAgentNode, hi, he, Except.map]
    case LOCATIONS =>
      obtain ⟨-, hfe⟩ := hf
      subst hfe
      simp [routeToAgentNode, hi, he, Except.map]
    case FAQ =>
      obtain ⟨-, hfe⟩ := hf
      subst hfe
      simp [routeToAgentNode, hi, he, Except.map]
    case GENERAL => exact Option.noConfusion hf
    case AMBIGUOUS => exact Option.noConfusion hf
  · intro st2 h2
    rcases h2 with h2 | h2 | h2 <;> simp [routeToAgentNode, h2]

/-- Witness for C2 (amended) at a concrete RATES state and a handler set
whose rates agent raises. -/
theorem dispatch_error_propagation_witness :
    routeToAgentNode
      { tracking := fun _ => Except.ok [("content", Value.str "ok")],
        rates := fun _ => Except.error "smsa api down",
        retail := fun _ => Except.ok [("content", Value.str "ok")],
        faq := fun _ => Except.ok [("content", Value.str "ok")] }
      { message := "rate please", conversation_id := "c1",
        intent := some Intent.RATES } =
      Except.error "smsa api down" := by
  exact (dispatch_error_propagation
    { tracking := fun _ => Except.ok [("content", Value.str "ok")],
      rates := fun _ => Except.error "smsa api down",
      retail := fun _ => Except.ok [("content", Value.str "ok")],
      faq := fun _ => Except.ok [("content", Value.str "ok")] }
    { message := "rate please", conversation_id := "c1",
      intent := some Intent.RATES }
    Intent.RATES "rates" (fun _ => Except.error "smsa api down") "smsa api down"
    rfl rfl rfl).1

/-- C7: when every storage call raises (both the conversation-context fetch
and the history fetch are error oracles), _assemble_context_node still
returns empty history and empty file context without raising (the node is a
total function); and when the conversation id is the "default" sentinel the
history fetch is skipped entirely: the history is empty and the result does
not depend on the history oracle at all. -/
theorem assemble_context_degrades (st : OrchestratorState) (e1 e2 : String)
    (storage : Except String (Option Dict)) (db db2 : Except String (List Dict)) :
    assembleContextNode (Except.error e1) (Except.error e2) st =
      { conversation_history := [], file_context := [], semantic_context := [] } ∧
    (st.conversation_id = "default" →
      (assembleContextNode storage db st).conversation_history = [] ∧
      assembleContextNode storage db st = assembleContextNode storage db2 st) := by
  constructor
  · unfold assembleContextNode
    by_cases hfc : (optStrTruthy st.file_id ∧ st.intent = some Intent.TRACKING) <;>
    by_cases hc : (st.conversation_id ≠ "" ∧ st.conversation_id ≠ "default") <;>
    simp [hfc, hc]
  · intro hd
    constructor
    · simp [assembleContextNode, hd]
    · simp [assembleContextNode, hd]

/-- Witness for C7 at the sentinel conversation id "default", a successful
storage oracle and two different history oracles. -/
theorem assemble_context_degrades_witness :
    (assembleContextNode (Except.ok (some [("files", Value.dict [])]))
        (Except.ok [[("role", Value.str "user")]])
        { message := "hi", conversation_id := "default" }).conversation_history = [] ∧
    assembleContextNode (Except.ok (some [("files", Value.dict [])]))
        (Except.ok [[("role", Value.str "user")]])
        { message := "hi", conversation_id := "default" } =
      assembleContextNode (Except.ok (some [("files", Value.dict [])]))
        (Except.error "mongo down")
        { message := "hi", conversation_id := "default" } := by
  exact (assemble_context_degrades
    { message := "hi", conversation_id := "default" } "e1" "e2"
    (Except.ok (some [("files", Value.dict [])]))
    (Except.ok [[("role", Value.str "user")]])
    (Except.error "mongo down")).2 rfl

end SMSA

namespace SMSA

/-- Lookup after assignment: the assigned key reads the new value, every
other key is unchanged. -/
theorem getVal_setKey (k k0 : String) (v : Value) (d : Dict) :
    getVal k (setKey k0 v d) = if k = k0 then some v else getVal k d := by
  induction d with
  | nil =>
    by_cases h : k = k0 <;> simp [setKey, getVal, h]
  | cons p t ih =>
    obtain ⟨k1, w⟩ := p
    by_cases h1 : k1 = k0 <;> by_cases h2 : k = k1 <;>
      simp_all [setKey, getVal]

/-- A key outside the key list of a dict reads none. -/
theorem getVal_eq_none_of_not_mem (k : String) (d : Dict)
    (h : k ∉ d.map Prod.fst) : getVal k d = none := by
  induction d with
  | nil => simp [getVal]
  | cons p t ih =>
    obtain ⟨k1, w⟩ := p
    simp only [List.map_cons, List.mem_cons, not_or] at h
    simp [getVal, h.1, ih h.2]

/-- Lookup through the dict-splice fold: entries of m override acc, and an
absent key falls through to acc (m has no duplicate keys, as every dict the
Python runtime splices). -/
theorem getVal_foldl_setKey (m : Dict) (k : String) :
    ∀ acc : Dict, (m.map Prod.fst).Nodup →
      getVal k (m.foldl (fun acc kv => setKey kv.1 kv.2 acc) acc) =
        if (getVal k m).isSome then getVal k m else getVal k acc := by
  induction m with
  | nil =>
    intro acc _
    simp [getVal]
  | cons p t ih =>
    intro acc hnd
    obtain ⟨k0, v⟩ := p
    simp only [List.map_cons, List.nodup_cons] at hnd
    simp only [List.foldl_cons]
    rw [ih _ hnd.2]
    by_cases hk : k = k0
    · subst hk
      have ht : getVal k t = none := getVal_eq_none_of_not_mem k t hnd.1
      simp [getVal, ht, getVal_setKey]
    · simp [getVal, hk, getVal_setKey]

/-- Lookup through the whitelist-copy fold: a whitelist key present in d
reads from d, everything else falls through to acc. -/
theorem getVal_foldl_whitelist (d : Dict) (k : String) :
    ∀ (ws : List String) (acc : Dict),
      getVal k (ws.foldl
          (fun acc k0 =>
            match getVal k0 d with
            | some v => setKey k0 v acc
            | none => acc)
          acc) =
        if k ∈ ws ∧ (getVal k d).isSome then getVal k d else getVal k acc := by
  intro ws
  induction ws with
  | nil =>
    intro acc
    simp
  | cons k0 t ih =>
    intro acc
    simp only [List.foldl_cons]
    rw [ih]
    by_cases hk : k = k0
    · subst hk
      cases hv : getVal k d with
      | none => simp [hv]
      | some v =>
        simp only [hv, Option.isSome_some, and_true, List.mem_cons, true_or, if_pos]
        by_cases hmem : k ∈ t
        · simp [hmem]
        · simp [hmem, getVal_setKey]
    · cases hv : getVal k0 d with
      | none => simp [hv, List.mem_cons, hk]
      | some v => simp [hv, List.mem_cons, hk, getVal_setKey]

/-- C8 (amended): for every non-empty handler result (the source skips an
absent or empty falsy dict entirely, leaving content "" and metadata
empty), the aggregation stage sets content to the top-level content entry,
defaulting to the empty string when absent, and metadata reads as: a
whitelist key (type, raw_data, events, current_status, status_explanation,
requires_awb, centers, location_info, city, needs_clarification) present at
top level of the handler result passes through; otherwise an entry of
handler_result.metadata applies; otherwise the agent key holds the handler
result top-level agent entry, defaulting to the dispatched handler name;
every other top-level key of the handler result is dropped.  The claim as
frozen fails only on the agent entry: the top-level agent key of the
handler result is consulted before the handler name (see the
counterexample). -/
theorem aggregate_envelope_spec (agentName : String) (d : Dict) (k : String)
    (hne : d ≠ [])
    (hwf : metadataWellFormed d)
    (hnd : ((metaEntries d).map Prod.fst).Nodup) :
    (aggregateEnvelope (some agentName) (some d)).1 =
      (getVal "content" d).getD (Value.str "") ∧
    getVal k (aggregateEnvelope (some agentName) (some d)).2 =
      (if k ∈ whitelistKeys ∧ (getVal k d).isSome then getVal k d
       else if (getVal k (metaEntries d)).isSome then getVal k (metaEntries d)
       else if k = "agent" then some ((getVal "agent" d).getD (Value.str agentName))
       else none) := by
  match d, hne with
  | p :: t, _ =>
    constructor
    · rfl
    · show getVal k (aggregateMetadata (optStrValue (some agentName)) (p :: t)) = _
      unfold aggregateMetadata
      rw [getVal_foldl_whitelist, getVal_foldl_setKey _ _ _ hnd]
      by_cases h1 : k ∈ whitelistKeys ∧ (getVal k (p :: t)).isSome
      · simp [h1]
      · simp only [h1, if_false]
        by_cases h2 : (getVal k (metaEntries (p :: t))).isSome
        · simp [h2]
        · simp only [h2, if_false, Bool.false_eq_true]
          by_cases h3 : k = "agent"
          · simp [h3, getVal, optStrValue]
          · simp [h3, getVal, optStrValue]

/-- Witness for C8 (amended) at a concrete handler result carrying content,
a metadata dict, one whitelist key and one stray key. -/
theorem aggregate_envelope_spec_witness :
    (aggregateEnvelope (some "tracking")
        (some [("content", Value.str "done"),
               ("metadata", Value.dict [("lang", Value.str "en")]),
               ("events", Value.arr []),
               ("stray", Value.str "x")])).1 = Value.str "done" ∧
    getVal "stray" (aggregateEnvelope (some "tracking")
        (some [("content", Value.str "done"),
               ("metadata", Value.dict [("lang", Value.str "en")]),
               ("events", Value.arr []),
               ("stray", Value.str "x")])).2 = none := by
  have h1 := aggregate_envelope_spec "tracking"
    [("content", Value.str "done"),
     ("metadata", Value.dict [("lang", Value.str "en")]),
     ("events", Value.arr []),
     ("stray", Value.str "x")] "stray"
    (by simp)
    (by
      intro v hv
      refine ⟨[("lang", Value.str "en")], ?_⟩
      simp [getVal] at hv
      exact hv.symm)
    (by simp [metaEntries, getVal])
  refine ⟨?_, ?_⟩
  · rw [h1.1]; rfl
  · rw [h1.2]; rfl

/-- C8 (counterexample): a handler result with the top-level key "agent"
(outside the whitelist) set to "custom" and dispatched handler name
"tracking": the aggregated metadata carries agent = "custom", not the
handler name, so the base is not the fixed pair of the claim and a
non-whitelist top-level key is not dropped. -/
theorem aggregate_agent_passthrough_counterexample :
    getVal "agent" (aggregateEnvelope (some "tracking")
        (some [("agent", Value.str "custom"), ("content", Value.str "hi")])).2 =
      some (Value.str "custom") ∧
    Value.str "custom" ≠ Value.str "tracking" := by
  constructor
  · rfl
  · intro h
    have : "custom" = "tracking" := Value.str.inj h
    exact absurd this (by decide)

end SMSA

namespace SMSA

/-- Each guarded persistence call leaves the same log whatever its outcome:
the except clause only logs. -/
theorem attemptCall_log {α : Type} (log : List DbCall) (c : DbCall)
    (o : Except String α) : attemptCall log c o = log.concat c := by
  cases o <;> rfl

/-- C9: for a persisting conversation id (non-empty and not the "default"
sentinel), the aggregation stage issues exactly one ensure-conversation call
followed by exactly two save-message calls, the user message first and the
assistant message second, whatever the outcomes of the three calls are; in
particular a failure of the user save does not prevent the assistant save
attempt (the call list is the same for any two outcome assignments), and no
persistence failure (conversation creation included) changes the content and
metadata returned to the caller, which equal the envelope computed before
the persistence block. -/
theorem aggregate_persists_user_then_assistant (db db2 : DbOutcomes)
    (st : OrchestratorState)
    (h1 : st.conversation_id ≠ "") (h2 : st.conversation_id ≠ "default") :
    (∃ uid em um am,
      (aggregateResponseNode db st).2 =
        [DbCall.ensure st.conversation_id uid em,
         DbCall.save st.conversation_id "user" (Value.str st.message) um,
         DbCall.save st.conversation_id "assistant"
           (aggregateEnvelope st.agent_name st.agent_response).1 am]) ∧
    (aggregateResponseNode db st).1 =
      aggregateEnvelope st.agent_name st.agent_response ∧
    aggregateResponseNode db st = aggregateResponseNode db2 st := by
  refine ⟨⟨(match st.user_id with
             | some u => if u = "" then "anonymous" else u
             | none => "anonymous"),
           [("intent", intentValue st.intent),
            ("selected_agent", optStrValue st.selected_agent)],
           [("intent", intentValue st.intent),
            ("intent_confidence", Value.num st.intent_confidence),
            ("selected_agent", optStrValue st.selected_agent)],
           [("agent", (getVal "agent"
               (aggregateEnvelope st.agent_name st.agent_response).2).getD
                 (optStrValue st.agent_name)),
            ("intent", intentValue st.intent)], ?_⟩, rfl, ?_⟩
  · unfold aggregateResponseNode
    simp [attemptCall_log, h1, h2, List.concat]
  · unfold aggregateResponseNode
    simp [attemptCall_log]

/-- Witness for C9 at a concrete turn: all-ok outcomes against a failing
user save leave the node result unchanged. -/
theorem aggregate_persists_user_then_assistant_witness :
    aggregateResponseNode { }
        { message := "hi", conversation_id := "c1",
          agent_name := some "tracking",
          agent_response := some [("agent", Value.str "tracking"),
                                  ("content", Value.str "done")] } =
      aggregateResponseNode { saveUser := Except.error "mongo down" }
        { message := "hi", conversation_id := "c1",
          agent_name := some "tracking",
          agent_response := some [("agent", Value.str "tracking"),
                                  ("content", Value.str "done")] } := by
  exact (aggregate_persists_user_then_assistant { }
    { saveUser := Except.error "mongo down" }
    { message := "hi", conversation_id := "c1",
      agent_name := some "tracking",
      agent_response := some [("agent", Value.str "tracking"),
                              ("content", Value.str "done")] }
    (by decide) (by decide)).2.2

end SMSA
